import Mathlib

/-
Verification of the HTTP snapshot layer of teknologi-umum/semya
(src/backend/http.go) against its natural-language specification.

The Go handlers are shallowly embedded: the net/http response writer is a
small explicit state machine, stateful effects (store reads, subscriber
creation, the streaming delivery loop) are made explicit as returned action
lists or oracle parameters, and machine integers are modelled as Int/Nat.
Components referenced by http.go but whose code is not part of the sources
(the Broker, the Subscriber, the historical reader, the module-level
monitorIds slice) are modelled from the specification and marked as such.
-/

namespace Semya

/-- Model of the client-visible effect of a Go net/http ResponseWriter.
Semantics mirrored from net/http: the first WriteHeader call commits the
status and every later WriteHeader call is ignored; a header mutation after
the status is committed has no effect on the sent response; a Write before
any WriteHeader implicitly commits status 200; Write appends to the body. -/
structure ResponseWriter where
  committedStatus : Option Nat
  headers : List (String × String)
  body : String
deriving Repr, DecidableEq

/-- The fresh response writer handed to a handler for a new request. -/
def ResponseWriter.init : ResponseWriter :=
  { committedStatus := none, headers := [], body := "" }

/-- Model of w.WriteHeader(code): commits the status once; later calls are
ignored (net/http logs a superfluous-call warning and does nothing). -/
def ResponseWriter.writeHeader (w : ResponseWriter) (code : Nat) : ResponseWriter :=
  match w.committedStatus with
  | some _ => w
  | none => { w with committedStatus := some code }

/-- Model of w.Header().Set(k, v): replaces the header value if the response
is not yet committed; after commit the mutation is never sent, so on the
client-visible model it is a no-op. -/
def ResponseWriter.headerSet (w : ResponseWriter) (k v : String) : ResponseWriter :=
  match w.committedStatus with
  | some _ => w
  | none => { w with headers := (k, v) :: w.headers.filter (fun p => p.1 ≠ k) }

/-- Model of w.Write(b): commits status 200 if nothing was committed yet and
appends the bytes to the body. -/
def ResponseWriter.write (w : ResponseWriter) (s : String) : ResponseWriter :=
  match w.committedStatus with
  | some _ => { w with body := w.body ++ s }
  | none => { w with committedStatus := some 200, body := w.body ++ s }

/-- The body is a JSON error object of shape \x7b"error": "<message>"\x7d.
Both spellings that occur in http.go are admitted: the hand-written literals
carry a space after the colon, the json.Marshal output does not. -/
def IsErrorBody (s : String) : Prop :=
  ∃ m, s = "\x7b\"error\": \"" ++ m ++ "\"\x7d" ∨ s = "\x7b\"error\":\"" ++ m ++ "\"\x7d"

/-- Modelled from the spec and the migration 20240523085502_monitor_historical.sql:
one historical row (monitor_id, status SMALLINT, latency INTEGER,
timestamp TIMESTAMPTZ). The MonitorHistorical Go type itself is not under
src/. The timestamp is an abstract instant. -/
structure MonitorHistorical where
  monitorId : String
  status : Int
  latency : Int
  timestamp : Int
deriving Repr, DecidableEq

/-- Modelled from the spec: external monitor metadata (id, display name,
probe target); the Monitor Go type is not under src/. staticSnapshot only
ever uses its zero value (the metadata acquisition is a TODO in the code). -/
structure Monitor where
  id : String
  name : String
  target : String
deriving Repr, DecidableEq

/-- The zero value of Monitor, as produced by var monitor Monitor. -/
def Monitor.zero : Monitor := { id := "", name := "", target := "" }

/-- One read operation against the tiered historical store, recording which
tier was hit and for which monitor id. -/
inductive StoreOp
  | raw (id : String)
  | hourly (id : String)
  | daily (id : String)
deriving Repr, DecidableEq

/-- Model of Go json.Marshal applied to map[string]string with the single
key "error": it always succeeds and produces \x7b"error":"<msg>"\x7d with no
space. JSON string escaping of the message is omitted — the messages built
by http.go contain no characters that need escaping. The Except shape keeps
the (dead in Go, since marshaling a string map cannot fail) error branch of
the source representable. -/
def marshalErrorMap (msg : String) : Except String String :=
  .ok ("\x7b\"error\":\"" ++ msg ++ "\"\x7d")

/-- Environment of staticSnapshot. monitorIds models the module-level known
monitor id slice (spec: a global slice of known monitor ids; not under
src/). The three read functions model MonitorHistoricalReader, spec 4.4:
each returns the full history at one resolution or fails. marshalPayload
models json.Marshal on the metadata+historical map; it is fallible (in Go,
time.Time fields outside year 0..9999 make Marshal fail), so its outcome is
an oracle of the environment. -/
structure StaticEnv where
  monitorIds : List String
  readRawHistorical : String → Except String (List MonitorHistorical)
  readHourlyHistorical : String → Except String (List MonitorHistorical)
  readDailyHistorical : String → Except String (List MonitorHistorical)
  marshalPayload : Monitor → List MonitorHistorical → Except String String

/-- The shared tail of staticSnapshot after a successful store read
(http.go:247-265): marshal the metadata+historical map; on marshal failure
write 500 with a marshaled error body (or the literal fallback); on success
write 200 with the document. The Content-Type set after WriteHeader mirrors
the source order and is ineffective. -/
def staticMarshalAndWrite (env : StaticEnv) (w : ResponseWriter)
    (monitorHistorical : List MonitorHistorical) : ResponseWriter :=
  match env.marshalPayload Monitor.zero monitorHistorical with
  | .error e =>
    let w := (w.writeHeader 500).headerSet "Content-Type" "application/json"
    match marshalErrorMap e with
    | .error _ => w.write "\x7b\"error\": \"internal server error\"\x7d"
    | .ok errBytes => w.write errBytes
  | .ok data =>
    ((w.writeHeader 200).headerSet "Content-Type" "application/json").write data

/-- Model of Server.staticSnapshot (http.go:183-266). Query parameters are
given as strings, the empty string meaning absent, exactly as
r.URL.Query().Get returns them. The second component records the store
reads performed, in order. Branch order, status codes, header/write order
and the literal bodies mirror the source; the store-read failure branches
return bare 500 responses with no body (the TODO in the source). -/
def staticSnapshot (env : StaticEnv) (idParam intervalParam : String)
    (w0 : ResponseWriter) : ResponseWriter × List StoreOp :=
  if idParam = "" then
    (((w0.writeHeader 400).headerSet "Content-Type" "application/json").write
      "\x7b\"error\": \"id is required\"\x7d", [])
  else
    let interval := if intervalParam = "" then "hourly" else intervalParam
    if interval ≠ "hourly" ∧ interval ≠ "daily" ∧ interval ≠ "raw" then
      (((w0.writeHeader 400).headerSet "Content-Type" "application/json").write
        "\x7b\"error\": \"interval must be hourly, daily, or raw\"\x7d", [])
    else if !env.monitorIds.contains idParam then
      (((w0.writeHeader 400).headerSet "Content-Type" "application/json").write
        "\x7b\"error\": \"id is not in the list of monitors\"\x7d", [])
    else
      if interval = "raw" then
        match env.readRawHistorical idParam with
        | .error _ => (w0.writeHeader 500, [StoreOp.raw idParam])
        | .ok rows => (staticMarshalAndWrite env w0 rows, [StoreOp.raw idParam])
      else if interval = "hourly" then
        match env.readHourlyHistorical idParam with
        | .error _ => (w0.writeHeader 500, [StoreOp.hourly idParam])
        | .ok rows => (staticMarshalAndWrite env w0 rows, [StoreOp.hourly idParam])
      else if interval = "daily" then
        match env.readDailyHistorical idParam with
        | .error _ => (w0.writeHeader 500, [StoreOp.daily idParam])
        | .ok rows => (staticMarshalAndWrite env w0 rows, [StoreOp.daily idParam])
      else
        (((w0.writeHeader 400).headerSet "Content-Type" "application/json").write
          "\x7b\"error\": \"interval must be hourly, daily, or raw\"\x7d", [])

/-- Split of a character list around every occurrence of the separator
character, keeping empty segments, used to model strings.Split. -/
def splitCharList (c : Char) : List Char → List (List Char)
  | [] => [[]]
  | x :: xs =>
    let rest := splitCharList c xs
    if x = c then [] :: rest
    else
      match rest with
      | [] => [[x]]
      | y :: ys => (x :: y) :: ys

/-- Model of Go strings.Split(s, ",") for the nonempty separator ",": the
substrings around each comma, empty segments kept, and [""] for the empty
input. -/
def goSplitComma (s : String) : List String :=
  (splitCharList ',' s.data).map String.mk

/-- Environment of snapshotBy. monitorIds models the module-level known
monitor id slice (not under src/). newSubscriberResult is the oracle for
NewSubscriber(s.centralBroker, ids...), whose code is not under src/: it is
given the wanted id list and either succeeds or fails with a message. -/
structure ByEnv where
  monitorIds : List String
  newSubscriberResult : List String → Except String Unit

/-- Outcome of the pre-loop phase of snapshotBy: the response writer state
when the handler returns or enters its delivery loop, whether NewSubscriber
was called, and whether the delivery loop is entered. -/
structure BySetupResult where
  response : ResponseWriter
  calledNewSubscriber : Bool
  entersDeliveryLoop : Bool
deriving Repr, DecidableEq

/-- Model of Server.snapshotBy up to its delivery loop (http.go:114-158).
isFlusher models the w.(http.Flusher) type assertion. The comma-separated
ids are split exactly as strings.Split does for a nonempty separator; the
membership loop rejects at the first unknown id, mirrored by find?. The
event-stream headers and status 200 are committed before NewSubscriber is
called; on subscriber failure the source then calls WriteHeader(500) and
Header().Set, both ineffective after the commit. -/
def snapshotBySetup (env : ByEnv) (isFlusher : Bool) (idsParam : String)
    (w0 : ResponseWriter) : BySetupResult :=
  if !isFlusher then
    { response := ((w0.writeHeader 412).headerSet "Content-Type" "application/json").write
        "\x7b\"error\": \"not flusher\"\x7d"
      calledNewSubscriber := false
      entersDeliveryLoop := false }
  else if idsParam = "" then
    { response := ((w0.writeHeader 400).headerSet "Content-Type" "application/json").write
        "\x7b\"error\":\"ids is required\"\x7d"
      calledNewSubscriber := false
      entersDeliveryLoop := false }
  else
    let wantedMonitorIds := goSplitComma idsParam
    match wantedMonitorIds.find? (fun id => !env.monitorIds.contains id) with
    | some _ =>
      { response := ((w0.headerSet "Content-Type" "application/json").writeHeader 400).write
          "\x7b\"error\": \"id is not in the list of monitors\"\x7d"
        calledNewSubscriber := false
        entersDeliveryLoop := false }
    | none =>
      let w := ((((w0.headerSet "Content-Type" "text/event-stream").headerSet
        "Cache-Control" "no-cache").headerSet "Connection" "keep-alive").writeHeader 200)
      match env.newSubscriberResult wantedMonitorIds with
      | .error e =>
        let w := (w.writeHeader 500).headerSet "Content-Type" "application/json"
        match marshalErrorMap ("failed to subscribe to endpoints: " ++ e) with
        | .error _ =>
          { response := w.write "\x7b\"error\": \"internal server error\"\x7d"
            calledNewSubscriber := true
            entersDeliveryLoop := false }
        | .ok errBytes =>
          { response := w.write errBytes
            calledNewSubscriber := true
            entersDeliveryLoop := false }
      | .ok _ =>
        { response := w
          calledNewSubscriber := true
          entersDeliveryLoop := true }

/-- Modelled from the spec: the process-wide fan-out Broker (spec 4.1). Its
code is not under src/; only its identity matters here, and a Go pointer to
it is modelled as an Option, none being nil. -/
structure Broker where
  brokerId : Nat
deriving Repr, DecidableEq

/-- Modelled from the spec: the MonitorHistoricalReader value (spec 4.4);
its code is not under src/ and only its identity matters here. -/
structure MonitorHistoricalReaderRef where
  readerId : Nat
deriving Repr, DecidableEq

/-- The Server struct (http.go:18-21); pointer fields are Options, none
being Go nil. -/
structure Server where
  historicalReader : Option MonitorHistoricalReaderRef
  centralBroker : Option Broker
deriving Repr, DecidableEq

/-- The ServerConfig struct (http.go:23-31). -/
structure ServerConfig where
  sslRedirect : Bool
  environment : String
  hostname : String
  port : String
  staticPath : String
  monitorHistoricalReader : Option MonitorHistoricalReaderRef
  centralBroker : Option Broker
deriving Repr, DecidableEq

/-- Models the Server value constructed inside NewServer (http.go:33-36):
the composite literal populates only historicalReader, so centralBroker is
left at its zero value, Go nil. The routing, middleware and http.Server
wrapping are out of the model. -/
def NewServer (config : ServerConfig) : Server :=
  { historicalReader := config.monitorHistoricalReader
    centralBroker := none }

/-- The broker argument the streaming handlers pass to NewSubscriber
(http.go:78 and http.go:147): both pass s.centralBroker. -/
def Server.brokerForSubscribers (s : Server) : Option Broker :=
  s.centralBroker

/-- One pass of the delivery loop as seen by the select statement: either
the request context is done, or a sample is ready on the subscriber channel
(carrying the write-error oracle for that delivery), or neither is ready
and the default branch runs. -/
inductive LoopEvent
  | cancelled
  | sample (data : MonitorHistorical) (writeErr : Option String)
  | pending
deriving Repr, DecidableEq

/-- Observable actions of the delivery loop. listenCall records one
evaluation of the subscriber.Listen(ctx) select operand. -/
inductive StreamAction
  | listenCall
  | logMarshalError (e : String)
  | write (s : String)
  | logWriteError (e : String)
  | flush
  | sleepMs (n : Nat)
  | stop
deriving Repr, DecidableEq

/-- One iteration of the delivery loop shared verbatim by snapshotOverview
(http.go:91-110) and snapshotBy (http.go:160-179). Go select evaluates the
channel operands of every case before choosing a branch, so
subscriber.Listen(ctx) is invoked on every pass, whichever branch runs.
On a ready sample: json.Marshal (modelled by the marshal oracle); on
marshal failure the error is logged and the nil byte slice stringifies to
"", after which the handler still writes "data: " + "" + two newlines;
a write error is logged; the flusher is flushed. The default branch sleeps
a fixed 10 milliseconds. -/
def streamLoopStep (marshal : MonitorHistorical → Except String String) :
    LoopEvent → List StreamAction
  | .cancelled => [.listenCall, .stop]
  | .pending => [.listenCall, .sleepMs 10]
  | .sample data writeErr =>
    let m := marshal data
    let marshaled := match m with
      | .ok s => s
      | .error _ => ""
    let mlog : List StreamAction := match m with
      | .ok _ => []
      | .error e => [.logMarshalError e]
    let wlog : List StreamAction := match writeErr with
      | none => []
      | some e => [.logWriteError e]
    [StreamAction.listenCall] ++ mlog
      ++ [StreamAction.write ("data: " ++ marshaled ++ "\n\n")]
      ++ wlog ++ [StreamAction.flush]

/-- The delivery loop run over a finite script of select outcomes: each
event contributes one iteration of actions; a cancelled event returns from
the handler and ends the trace. -/
def streamLoop (marshal : MonitorHistorical → Except String String) :
    List LoopEvent → List StreamAction
  | [] => []
  | ev :: rest =>
    match ev with
    | .cancelled => streamLoopStep marshal .cancelled
    | _ => streamLoopStep marshal ev ++ streamLoop marshal rest

/-- Number of subscriber.Listen(ctx) invocations in a trace. -/
def countListenCalls (acts : List StreamAction) : Nat :=
  (acts.filter (fun a => a = StreamAction.listenCall)).length

/-- Concrete sample row used by witnesses. -/
def sampleRow : MonitorHistorical :=
  { monitorId := "m1", status := 1, latency := 10, timestamp := 0 }

/-- Concrete marshal oracle that always succeeds. -/
def marshalOk : MonitorHistorical → Except String String :=
  fun _ => .ok "\x7b\x7d"

/-- Concrete marshal oracle that always fails. -/
def marshalBad : MonitorHistorical → Except String String :=
  fun _ => .error "boom"

/-- Concrete static environment whose store reads all succeed. -/
def sampleStaticEnv : StaticEnv :=
  { monitorIds := ["m1", "m2"]
    readRawHistorical := fun _ => .ok [sampleRow]
    readHourlyHistorical := fun _ => .ok [sampleRow]
    readDailyHistorical := fun _ => .ok [sampleRow]
    marshalPayload := fun _ _ => .ok "\x7b\x7d" }

/-- Concrete static environment whose store reads all fail. -/
def failingStoreEnv : StaticEnv :=
  { monitorIds := ["m1", "m2"]
    readRawHistorical := fun _ => .error "store failure"
    readHourlyHistorical := fun _ => .error "store failure"
    readDailyHistorical := fun _ => .error "store failure"
    marshalPayload := fun _ _ => .ok "\x7b\x7d" }

/-- Concrete snapshotBy environment whose subscriber creation succeeds. -/
def sampleByEnv : ByEnv :=
  { monitorIds := ["m1", "m2"]
    newSubscriberResult := fun _ => .ok () }

/-- Concrete snapshotBy environment whose subscriber creation fails, as it
does when the broker is nil. -/
def failingSubByEnv : ByEnv :=
  { monitorIds := ["m1", "m2"]
    newSubscriberResult := fun _ => .error "nil broker" }

/-- The empty body is not a JSON error object. -/
theorem not_errorBody_empty : ¬ IsErrorBody "" := by
  rintro ⟨m, h | h⟩
  · have hl : ("" : String).length
        = ("\x7b\"error\": \"" : String).length + m.length + ("\"\x7d" : String).length := by
      simpa [String.length_append] using congrArg String.length h
    have h0 : ("" : String).length = 0 := by decide
    have h1 : ("\x7b\"error\": \"" : String).length = 11 := by decide
    omega
  · have hl : ("" : String).length
        = ("\x7b\"error\":\"" : String).length + m.length + ("\"\x7d" : String).length := by
      simpa [String.length_append] using congrArg String.length h
    have h0 : ("" : String).length = 0 := by decide
    have h1 : ("\x7b\"error\":\"" : String).length = 10 := by decide
    omega

/-- Claim C1: every failing request is supposed to carry a JSON error body
of shape \x7b"error": "<message>"\x7d; in particular a store read failure in
staticSnapshot should still yield such a body on the 500 response. The code
violates this: on a store read failure staticSnapshot commits status 500
and returns immediately, sending an empty body. -/
theorem c1_store_failure_bare_500 :
    (staticSnapshot failingStoreEnv "m1" "hourly" ResponseWriter.init).1.committedStatus = some 500
    ∧ (staticSnapshot failingStoreEnv "m1" "hourly" ResponseWriter.init).1.body = ""
    ∧ ¬ IsErrorBody (staticSnapshot failingStoreEnv "m1" "hourly" ResponseWriter.init).1.body := by
  refine ⟨by decide, by decide, ?_⟩
  have hb : (staticSnapshot failingStoreEnv "m1" "hourly" ResponseWriter.init).1.body = "" := by
    decide
  rw [hb]
  exact not_errorBody_empty

/-- Claim C2, counterexample: the delivery loop is claimed never to wait by
a fixed-interval sleep-poll, but when neither a sample nor cancellation is
ready, the select default branch sleeps a fixed 10 milliseconds. -/
theorem c2_sleep_poll_counterexample :
    StreamAction.sleepMs 10 ∈ streamLoopStep marshalOk LoopEvent.pending := by
  decide

/-- Claim C2 amended: between deliveries the handler does not suspend until
an event arrives; whenever neither a new sample nor cancellation is
immediately ready, the loop sleeps a fixed 10 milliseconds and re-polls. -/
theorem c2_fixed_sleep_between_polls (marshal : MonitorHistorical → Except String String) :
    streamLoopStep marshal LoopEvent.pending
      = [StreamAction.listenCall, StreamAction.sleepMs 10] := rfl

/-- Claim C3: for every ServerConfig, the Server value built inside
NewServer leaves centralBroker at nil (config.CentralBroker is never
copied), so the broker argument the streaming handlers pass to
NewSubscriber is nil. -/
theorem c3_central_broker_nil (config : ServerConfig) :
    (NewServer config).centralBroker = none
    ∧ Server.brokerForSubscribers (NewServer config) = none :=
  ⟨rfl, rfl⟩

/-- Claim C8: Listen is claimed to be invoked at most once per connection,
but the select statement evaluates the subscriber.Listen(ctx) operand on
every pass of the loop: a connection whose loop runs two passes (one idle
pass, then cancellation) invokes Listen twice. -/
theorem c8_listen_called_every_iteration :
    countListenCalls (streamLoop marshalOk [LoopEvent.pending, LoopEvent.cancelled]) = 2 := by
  decide

/-- Claim C4: a staticSnapshot request whose interval parameter is present
and not one of raw, hourly, daily is rejected with status 400 and a JSON
error body, and no historical-store read is performed. -/
theorem c4_unknown_interval_rejected (env : StaticEnv) (idParam intervalParam : String)
    (hne : intervalParam ≠ "") (hraw : intervalParam ≠ "raw")
    (hhourly : intervalParam ≠ "hourly") (hdaily : intervalParam ≠ "daily") :
    (staticSnapshot env idParam intervalParam ResponseWriter.init).1.committedStatus = some 400
    ∧ IsErrorBody (staticSnapshot env idParam intervalParam ResponseWriter.init).1.body
    ∧ (staticSnapshot env idParam intervalParam ResponseWriter.init).2 = [] := by
  unfold staticSnapshot
  by_cases hid : idParam = ""
  · rw [if_pos hid]
    exact ⟨by decide, ⟨"id is required", Or.inl (by decide)⟩, by decide⟩
  · simp only [if_neg hid, if_neg hne]
    rw [if_pos (show intervalParam ≠ "hourly" ∧ intervalParam ≠ "daily" ∧ intervalParam ≠ "raw"
      from ⟨hhourly, hdaily, hraw⟩)]
    exact ⟨by decide, ⟨"interval must be hourly, daily, or raw", Or.inl (by decide)⟩, by decide⟩

/-- Claim C4 witness: interval=weekly with a known monitor id is rejected
with 400, a JSON error body, and no store access. -/
theorem c4_unknown_interval_witness :
    (staticSnapshot sampleStaticEnv "m1" "weekly" ResponseWriter.init).1.committedStatus = some 400
    ∧ IsErrorBody (staticSnapshot sampleStaticEnv "m1" "weekly" ResponseWriter.init).1.body
    ∧ (staticSnapshot sampleStaticEnv "m1" "weekly" ResponseWriter.init).2 = [] :=
  c4_unknown_interval_rejected sampleStaticEnv "m1" "weekly"
    (by decide) (by decide) (by decide) (by decide)

/-- Claim C9: a staticSnapshot request with a valid monitor id and no
interval parameter defaults to hourly: exactly one store read happens and
it is against the hourly tier. -/
theorem c9_default_interval_hourly (env : StaticEnv) (idParam : String)
    (hne : idParam ≠ "") (hmem : env.monitorIds.contains idParam = true) :
    (staticSnapshot env idParam "" ResponseWriter.init).2 = [StoreOp.hourly idParam] := by
  unfold staticSnapshot
  simp only [if_neg hne, hmem]
  norm_num
  cases hh : env.readHourlyHistorical idParam <;> simp [hh]

/-- Claim C9 witness: a request for monitor m1 with no interval reads the
hourly tier only. -/
theorem c9_default_interval_witness :
    (staticSnapshot sampleStaticEnv "m1" "" ResponseWriter.init).2 = [StoreOp.hourly "m1"] :=
  c9_default_interval_hourly sampleStaticEnv "m1" (by decide) (by decide)

/-- Claim C6: a delivered sample whose serialization succeeds produces
exactly one write, of the single event data: <json> followed by two
newlines, and the flush follows that write within the same iteration,
before any later sample is handled. -/
theorem c6_one_event_per_sample (marshal : MonitorHistorical → Except String String)
    (d : MonitorHistorical) (j : String) (writeErr : Option String)
    (hm : marshal d = Except.ok j) :
    streamLoopStep marshal (LoopEvent.sample d writeErr)
      = [StreamAction.listenCall, StreamAction.write ("data: " ++ j ++ "\n\n")]
        ++ (match writeErr with
            | none => []
            | some e => [StreamAction.logWriteError e])
        ++ [StreamAction.flush] := by
  cases writeErr <;> simp [streamLoopStep, hm]

/-- Claim C6 witness: one concrete delivered sample yields exactly the
single event write followed by the flush. -/
theorem c6_one_event_witness :
    streamLoopStep marshalOk (LoopEvent.sample sampleRow none)
      = [StreamAction.listenCall, StreamAction.write ("data: " ++ "\x7b\x7d" ++ "\n\n")]
        ++ ([] : List StreamAction) ++ [StreamAction.flush] :=
  c6_one_event_per_sample marshalOk sampleRow "\x7b\x7d" none rfl

/-- Claim C7, counterexample: on a serialization failure the claim says
nothing is written to the client for that sample, but the handler still
writes the event data: with an empty payload. -/
theorem c7_marshal_failure_counterexample :
    StreamAction.write "data: \n\n"
      ∈ streamLoopStep marshalBad (LoopEvent.sample sampleRow none) := by
  decide

/-- Claim C7 amended: if serializing a sample fails, the error is logged
but the delivery is not abandoned: the handler still writes the malformed
event data: with an empty payload and flushes; if writing fails, the error
is logged and the loop continues with the next event. -/
theorem c7_marshal_failure_behavior (marshal : MonitorHistorical → Except String String)
    (d : MonitorHistorical) (e : String) (writeErr : Option String) (rest : List LoopEvent)
    (hm : marshal d = Except.error e) :
    streamLoopStep marshal (LoopEvent.sample d writeErr)
      = [StreamAction.listenCall, StreamAction.logMarshalError e,
          StreamAction.write "data: \n\n"]
        ++ (match writeErr with
            | none => []
            | some w => [StreamAction.logWriteError w])
        ++ [StreamAction.flush]
    ∧ streamLoop marshal (LoopEvent.sample d writeErr :: rest)
      = streamLoopStep marshal (LoopEvent.sample d writeErr) ++ streamLoop marshal rest := by
  have hs : ("data: " ++ "" ++ "\n\n" : String) = "data: \n\n" := by decide
  constructor
  · cases writeErr <;> simp [streamLoopStep, hm, hs]
  · rfl

/-- Claim C7 witness: a concrete sample whose serialization fails, with a
failing write, still produces the malformed event write, the flush, and the
loop goes on to the next event. -/
theorem c7_marshal_failure_witness :
    streamLoopStep marshalBad (LoopEvent.sample sampleRow (some "wfail"))
      = [StreamAction.listenCall, StreamAction.logMarshalError "boom",
          StreamAction.write "data: \n\n"]
        ++ [StreamAction.logWriteError "wfail"] ++ [StreamAction.flush]
    ∧ streamLoop marshalBad (LoopEvent.sample sampleRow (some "wfail") :: [LoopEvent.cancelled])
      = streamLoopStep marshalBad (LoopEvent.sample sampleRow (some "wfail"))
        ++ streamLoop marshalBad [LoopEvent.cancelled] :=
  c7_marshal_failure_behavior marshalBad sampleRow "boom" (some "wfail")
    [LoopEvent.cancelled] rfl

/-- Claim C5: on a streaming-capable transport, if at least one id in the
comma-separated ids list is not a known monitor id, snapshotBy responds
with status 400 and a JSON error body, and NewSubscriber is never called. -/
theorem c5_unknown_id_rejected (env : ByEnv) (idsParam : String)
    (hex : ∃ id ∈ goSplitComma idsParam, env.monitorIds.contains id = false) :
    (snapshotBySetup env true idsParam ResponseWriter.init).response.committedStatus = some 400
    ∧ IsErrorBody (snapshotBySetup env true idsParam ResponseWriter.init).response.body
    ∧ (snapshotBySetup env true idsParam ResponseWriter.init).calledNewSubscriber = false := by
  unfold snapshotBySetup
  by_cases hids : idsParam = ""
  · rw [if_neg (by decide), if_pos hids]
    exact ⟨by decide, ⟨"ids is required", Or.inr (by decide)⟩, by decide⟩
  · rw [if_neg (by decide), if_neg hids]
    rcases hex with ⟨id, hmem, hcon⟩
    cases hfind : (goSplitComma idsParam).find? (fun id => !env.monitorIds.contains id) with
    | none =>
      have h1 := List.find?_eq_none.mp hfind id hmem
      rw [hcon] at h1
      exact absurd rfl h1
    | some y =>
      simp only [hfind]
      exact ⟨by decide, ⟨"id is not in the list of monitors", Or.inl (by decide)⟩, by decide⟩

/-- Claim C5 witness: the list m1,zz contains the unknown id zz, so the
request is rejected with 400 and no subscriber is created. -/
theorem c5_unknown_id_witness :
    (snapshotBySetup sampleByEnv true "m1,zz" ResponseWriter.init).response.committedStatus = some 400
    ∧ IsErrorBody (snapshotBySetup sampleByEnv true "m1,zz" ResponseWriter.init).response.body
    ∧ (snapshotBySetup sampleByEnv true "m1,zz" ResponseWriter.init).calledNewSubscriber = false :=
  c5_unknown_id_rejected sampleByEnv "m1,zz" ⟨"zz", by decide, by decide⟩

/-- Claim C10: snapshotBy commits status 200 and the event-stream headers
before calling NewSubscriber, so when NewSubscriber fails the later
WriteHeader(500) cannot change the committed status: the client receives a
200 response whose body is the JSON error object. -/
theorem c10_error_after_commit_keeps_200 (env : ByEnv) (idsParam e : String)
    (hids : idsParam ≠ "")
    (hall : ∀ id ∈ goSplitComma idsParam, env.monitorIds.contains id = true)
    (hsub : env.newSubscriberResult (goSplitComma idsParam) = Except.error e) :
    (snapshotBySetup env true idsParam ResponseWriter.init).response.committedStatus = some 200
    ∧ IsErrorBody (snapshotBySetup env true idsParam ResponseWriter.init).response.body
    ∧ ("Content-Type", "text/event-stream")
        ∈ (snapshotBySetup env true idsParam ResponseWriter.init).response.headers
    ∧ (snapshotBySetup env true idsParam ResponseWriter.init).calledNewSubscriber = true := by
  unfold snapshotBySetup
  rw [if_neg (by decide), if_neg hids]
  have hfind : (goSplitComma idsParam).find? (fun id => !env.monitorIds.contains id) = none := by
    rw [List.find?_eq_none]
    intro x hx
    rw [hall x hx]
    decide
  simp only [hfind, hsub, marshalErrorMap]
  refine ⟨by trivial, ?_, ?_, by trivial⟩
  · exact ⟨"failed to subscribe to endpoints: " ++ e, Or.inr (by
      simp [ResponseWriter.init, ResponseWriter.headerSet, ResponseWriter.writeHeader,
        ResponseWriter.write])⟩
  · simp [ResponseWriter.init, ResponseWriter.headerSet, ResponseWriter.writeHeader,
      ResponseWriter.write]

/-- Claim C10 witness: a concrete request whose ids are all known but whose
subscriber creation fails still yields a committed 200 with the
event-stream header and a JSON error body. -/
theorem c10_error_after_commit_witness :
    (snapshotBySetup failingSubByEnv true "m1,m2" ResponseWriter.init).response.committedStatus
      = some 200
    ∧ IsErrorBody (snapshotBySetup failingSubByEnv true "m1,m2" ResponseWriter.init).response.body
    ∧ ("Content-Type", "text/event-stream")
        ∈ (snapshotBySetup failingSubByEnv true "m1,m2" ResponseWriter.init).response.headers
    ∧ (snapshotBySetup failingSubByEnv true "m1,m2" ResponseWriter.init).calledNewSubscriber
      = true :=
  c10_error_after_commit_keeps_200 failingSubByEnv "m1,m2" "nil broker"
    (by decide) (by decide) rfl

end Semya
